import Mathlib

/-!
Verification of the `todo-kanban` repository: a NestJS task service
(`src/tasks/tasks.service.ts`, `task.controller.ts`, `task.entity.ts`,
`create-task.dto.ts`) and a Vue client (`src/web-app/src/App.vue`).

The server stores rows of a single `tasks` table through a TypeORM
repository; the client keeps three in-memory lists (todo / progress /
done).  Timestamps are modelled as `Nat`, ids and titles as `String`.
TypeORM repository operations used by the service (`find`, `findOneBy`,
`save`, `softDelete`) are modelled with their documented semantics: the
`find*` family excludes rows whose delete-date column (`deletedAt`) is
set, `save` updates the row with the same primary key or inserts a new
one, and `softDelete` is an UPDATE that sets the delete-date column of
every row matching the criteria and reports the number of affected rows.
-/

deriving instance DecidableEq for Except

namespace Kanban

/-- JavaScript `String.prototype.trim` (used both by the zod `.trim()`
transform and by `newTaskTitle.value.trim()` in `App.vue`): strips
leading and trailing whitespace. -/
def jsTrim (s : String) : String :=
  String.mk
    (((s.data.dropWhile Char.isWhitespace).reverse.dropWhile
        Char.isWhitespace).reverse)

/-- `TaskStatus` enum (`src/tasks/enums/task-status.enum.ts`, values
`todo | progress | done` as used by the entity and both apps). -/
inductive TaskStatus where
  | todo
  | progress
  | done
deriving DecidableEq, Repr

/-- String value of a status, as serialized in JSON and used as the DOM
ids of the three kanban columns in `App.vue`. -/
def TaskStatus.str : TaskStatus → String
  | .todo => "todo"
  | .progress => "progress"
  | .done => "done"

/-- The `Task` entity (`src/modules/task/entities/task.entity.ts`):
uuid primary key `id`, varchar(255) `title`, enum `status` with default
`todo`, `createdAt` / `updatedAt` audit columns and a nullable
`deletedAt` delete-date column used for soft deletion. -/
structure Task where
  id : String
  title : String
  status : TaskStatus
  createdAt : Nat
  updatedAt : Nat
  deletedAt : Option Nat
deriving DecidableEq, Repr

/-- The `tasks` table: the list of persisted rows, soft-deleted rows
included. -/
abbrev Store := List Task

/-- `CreateTaskDto` (`src/modules/task/dto/create-task.dto.ts`): the
payload accepted by `POST /tasks`, carrying only a title. -/
structure CreateTaskDto where
  title : String
deriving DecidableEq, Repr

/-- `CreateTaskSchema` (`create-task.dto.ts`):
`z.object({ title: z.string().min(1).max(255).trim() })`.
Zod applies the checks in declaration order: `min(1)` and `max(255)`
test the length of the *raw* string, and only then does the `.trim()`
transform run.  `none` models a thrown `ZodError`. -/
def CreateTaskSchema_parse (title : String) : Option CreateTaskDto :=
  if 1 ≤ title.length ∧ title.length ≤ 255 then
    some { title := jsTrim title }
  else
    none

namespace Repository

/-- TypeORM `repository.find()` with no options: returns every row whose
delete-date column is null (soft-deleted rows are excluded from the
`find*` family by default). -/
def find (s : Store) : List Task :=
  s.filter (fun t => t.deletedAt = none)

/-- TypeORM `repository.findOneBy({ id })`: first non-soft-deleted row
with the given id, if any. -/
def findOneBy (s : Store) (id : String) : Option Task :=
  (find s).find? (fun t => t.id = id)

/-- TypeORM `repository.save(t)`: updates the row carrying the primary key of `t`
when one exists, otherwise inserts `t` as a new row. -/
def save (s : Store) (t : Task) : Store :=
  if s.any (fun r => r.id = t.id) then
    s.map (fun r => if r.id = t.id then t else r)
  else
    s ++ [t]

/-- TypeORM `repository.softDelete(id)`: an UPDATE setting the
delete-date column of every row with the given id (it does not filter on
the current value of `deletedAt`), returning the updated table and the
number of affected rows (`DeleteResult.affected`). -/
def softDelete (s : Store) (id : String) (now : Nat) : Store × Nat :=
  (s.map (fun r => if r.id = id then { r with deletedAt := some now } else r),
   (s.filter (fun r => r.id = id)).length)

end Repository

/-- Errors raised by the service; `notFound` models the NestJS
`NotFoundException` (HTTP 404). -/
inductive AppError where
  | notFound
deriving DecidableEq, Repr

namespace TaskService

/-- `TaskService.create` (`tasks.service.ts`): builds a task from the
DTO title — `status` takes the entity default `todo`, the audit
columns are filled, `deletedAt` stays null — saves it, and returns it.
`newId` is the uuid generated for the primary key and `now` the clock
reading. -/
def create (s : Store) (dto : CreateTaskDto) (newId : String) (now : Nat) :
    Store × Task :=
  let task : Task :=
    { id := newId, title := dto.title, status := .todo,
      createdAt := now, updatedAt := now, deletedAt := none }
  (Repository.save s task, task)

/-- `TaskService.findAll` (`tasks.service.ts`): `repository.find()`. -/
def findAll (s : Store) : List Task :=
  Repository.find s

/-- `TaskService.findOne` (`tasks.service.ts`): looks the task up with
`findOneBy({ id })` and throws `NotFoundException` when nothing is
found. -/
def findOne (s : Store) (id : String) : Except AppError Task :=
  match Repository.findOneBy s id with
  | some t => .ok t
  | none => .error .notFound

/-- `TaskService.updateStatus` (`tasks.service.ts`): finds the task via
`findOne` (propagating its `NotFoundException`), assigns the new status,
saves (the TypeORM `@UpdateDateColumn` bumps `updatedAt` on the write) and
returns the updated task together with the updated table. -/
def updateStatus (s : Store) (id : String) (status : TaskStatus)
    (now : Nat) : Except AppError (Store × Task) :=
  match findOne s id with
  | .error e => .error e
  | .ok task =>
    let task' := { task with status := status, updatedAt := now }
    .ok (Repository.save s task', task')

/-- `TaskService.remove` (`tasks.service.ts`): `repository.softDelete(id)`,
throwing `NotFoundException` when `DeleteResult.affected` is 0. -/
def remove (s : Store) (id : String) (now : Nat) : Except AppError Store :=
  let r := Repository.softDelete s id now
  if r.2 = 0 then .error .notFound else .ok r.1

end TaskService

/-- One request handled by the controller (`task.controller.ts`):
`POST /tasks`, `GET /tasks`, `PATCH /tasks/:id`, `DELETE /tasks/:id`. -/
inductive Op where
  | createOp (dto : CreateTaskDto) (newId : String) (now : Nat)
  | listOp
  | updateStatusOp (id : String) (status : TaskStatus) (now : Nat)
  | removeOp (id : String) (now : Nat)

/-- The table after serving one request; a thrown `NotFoundException`
aborts the handler and leaves the table as the operation left it (the
failed `softDelete` matched no row). -/
def applyOp (s : Store) : Op → Store
  | .createOp dto newId now => (TaskService.create s dto newId now).1
  | .listOp => s
  | .updateStatusOp id status now =>
    match TaskService.updateStatus s id status now with
    | .ok r => r.1
    | .error _ => s
  | .removeOp id now =>
    match TaskService.remove s id now with
    | .ok s' => s'
    | .error _ => s

/-- A task as the client sees it (`interface Task` in `App.vue`):
`id`, `title` and a `status` string taken from the JSON response. -/
structure CTask where
  id : String
  title : String
  status : String
deriving DecidableEq, Repr

/-- JSON serialization of a server task row as received by the client
`response.json()` call (the fields `App.vue` reads). -/
def Task.toClient (t : Task) : CTask :=
  { id := t.id, title := t.title, status := t.status.str }

/-- The reactive client state in `App.vue`: the three drag-and-drop
lists `todoTasks` / `progressTasks` / `doneTasks`, the `newTaskTitle`
input and the `errorMessage` banner. -/
structure ClientState where
  todoTasks : List CTask
  progressTasks : List CTask
  doneTasks : List CTask
  newTaskTitle : String
  errorMessage : Option String
deriving DecidableEq, Repr

/-- `fetchTasks` in `App.vue`, on a successful GET of `tasks`: resets
`errorMessage`, empties the three boards, then walks the fetched array
pushing each task onto the board named by its status (`todo`,
`progress` or `done`; any other status matches no branch of the
`if`/`else if` chain). -/
def fetchTasks (tasks : List CTask) (st : ClientState) : ClientState :=
  { st with
    errorMessage := none
    todoTasks := tasks.filter (fun t => t.status = "todo")
    progressTasks := tasks.filter (fun t => t.status = "progress")
    doneTasks := tasks.filter (fun t => t.status = "done") }

/-- `addTask` in `App.vue` composed with the server handling of the
POST it issues.  A blank (whitespace-only) `newTaskTitle` returns at
once.  Otherwise the trimmed title is sent; the controller validates it
against `CreateTaskSchema` (a rejection makes `response.ok` false, the
catch block records the error message); on success the client calls
`fetchTasks` to resynchronize and clears the input.  The `Bool` of the
result tells whether an HTTP request was issued. -/
def addTask (st : ClientState) (server : Store) (newId : String)
    (now : Nat) : ClientState × Store × Bool :=
  if jsTrim st.newTaskTitle = "" then
    (st, server, false)
  else
    match CreateTaskSchema_parse (jsTrim st.newTaskTitle) with
    | none =>
      ({ st with errorMessage := some "Gagal menambahkan tugas baru." },
       server, true)
    | some dto =>
      let server' := (TaskService.create server dto newId now).1
      let st' := fetchTasks ((TaskService.findAll server').map Task.toClient) st
      ({ st' with newTaskTitle := "" }, server', true)

/-- `deleteTask` in `App.vue` composed with the server handling of the
DELETE it issues.  When the server answers 404 the catch block records
the error message and the boards are untouched.  On success the client
walks `[todoTasks, progressTasks, doneTasks]` in order, splices the
task out of the first list whose `findIndex` on the id hits, and
breaks — it does not refetch. -/
def deleteTask (st : ClientState) (server : Store) (t : CTask)
    (now : Nat) : ClientState × Store :=
  match TaskService.remove server t.id now with
  | .error _ =>
    ({ st with errorMessage := some "Gagal menghapus tugas." }, server)
  | .ok server' =>
    if st.todoTasks.any (fun x => x.id = t.id) then
      ({ st with todoTasks := st.todoTasks.eraseP (fun x => x.id = t.id) },
       server')
    else if st.progressTasks.any (fun x => x.id = t.id) then
      ({ st with
         progressTasks := st.progressTasks.eraseP (fun x => x.id = t.id) },
       server')
    else if st.doneTasks.any (fun x => x.id = t.id) then
      ({ st with doneTasks := st.doneTasks.eraseP (fun x => x.id = t.id) },
       server')
    else
      (st, server')

/-- `handleTaskMove` in `App.vue` composed with the server handling of
the PATCH it issues.  A drop on the column it came from is a pure
re-order: no request.  Otherwise the client PATCHes the new status
(the column ids are the status values); whether the request succeeds or
fails, the `finally` block calls `fetchTasks` to resynchronize the
boards with the server. -/
def handleTaskMove (st : ClientState) (server : Store)
    (originalBoard newBoard : TaskStatus) (taskId : String) (now : Nat) :
    ClientState × Store :=
  if originalBoard = newBoard then
    (st, server)
  else
    match TaskService.updateStatus server taskId newBoard now with
    | .ok r =>
      (fetchTasks ((TaskService.findAll r.1).map Task.toClient) st, r.1)
    | .error _ =>
      (fetchTasks ((TaskService.findAll server).map Task.toClient)
         { st with errorMessage := some "Gagal memindahkan tugas." },
       server)

/-! ### Helper lemmas about the repository model -/

/-- Membership in a default `find`: exactly the rows whose delete-date
column is null. -/
theorem mem_find_iff (s : Store) (t : Task) :
    t ∈ Repository.find s ↔ t ∈ s ∧ t.deletedAt = none := by
  simp [Repository.find]

/-- A row returned by `findOneBy({ id })` is a stored, not soft-deleted
row with that id. -/
theorem findOneBy_some_spec (s : Store) (id : String) (t : Task)
    (h : Repository.findOneBy s id = some t) :
    t ∈ s ∧ t.id = id ∧ t.deletedAt = none := by
  have hm := List.mem_of_find?_eq_some h
  have hp := List.find?_some h
  rw [mem_find_iff] at hm
  simp only [decide_eq_true_eq] at hp
  exact ⟨hm.1, hp, hm.2⟩

/-- `findOneBy({ id })` comes back empty exactly when no non-deleted row
carries the id. -/
theorem findOneBy_none_iff (s : Store) (id : String) :
    Repository.findOneBy s id = none ↔
      ¬ ∃ t ∈ s, t.id = id ∧ t.deletedAt = none := by
  simp [Repository.findOneBy, List.find?_eq_none, mem_find_iff]
  constructor
  · intro h t ht hid
    exact fun hdel => h t ht hdel hid
  · intro h t ht hdel hid
    exact h t ht hid hdel

/-- `save` never shrinks the table: it is an UPDATE or an INSERT. -/
theorem save_length_ge (s : Store) (t : Task) :
    s.length ≤ (Repository.save s t).length := by
  unfold Repository.save
  split
  · simp
  · simp

/-- `save` of a row whose primary key is already present is an UPDATE:
the row count is unchanged. -/
theorem save_length_of_mem (s : Store) (t : Task)
    (h : ∃ r ∈ s, r.id = t.id) :
    (Repository.save s t).length = s.length := by
  obtain ⟨r, hr, hid⟩ := h
  unfold Repository.save
  rw [if_pos]
  · simp
  · exact List.any_eq_true.mpr ⟨r, hr, by simp [hid]⟩

/-- The saved row is in the table afterwards. -/
theorem save_mem (s : Store) (t : Task) : t ∈ Repository.save s t := by
  unfold Repository.save
  split
  · rename_i h
    obtain ⟨r, hr, hid⟩ := List.any_eq_true.mp h
    simp only [decide_eq_true_eq] at hid
    exact List.mem_map.mpr ⟨r, hr, by simp [hid]⟩
  · simp

/-- `save` leaves every row with a different primary key untouched. -/
theorem save_frame (s : Store) (t : Task) (r : Task) (hr : r ∈ s)
    (hid : r.id ≠ t.id) : r ∈ Repository.save s t := by
  unfold Repository.save
  split
  · exact List.mem_map.mpr ⟨r, hr, by simp [hid]⟩
  · exact List.mem_append_left _ hr

/-- Conversely, a row of the updated table with a primary key different
from the saved one was already stored. -/
theorem save_frame_rev (s : Store) (t : Task) (r : Task)
    (hr : r ∈ Repository.save s t) (hid : r.id ≠ t.id) : r ∈ s := by
  unfold Repository.save at hr
  split at hr
  · obtain ⟨x, hx, hxr⟩ := List.mem_map.mp hr
    by_cases hxid : x.id = t.id
    · rw [if_pos (by simp [hxid])] at hxr
      exact absurd (hxr ▸ rfl : r.id = t.id) hid
    · rw [if_neg (by simp [hxid])] at hxr
      exact hxr ▸ hx
  · rcases List.mem_append.mp hr with h | h
    · exact h
    · simp only [List.mem_singleton] at h
      exact absurd (h ▸ rfl : r.id = t.id) hid

/-! ### The claims -/

/-- C1: every stored task whose `deletedAt` is set is excluded from
`TaskService.findAll` (`GET /tasks`), and the returned list holds
exactly the non-deleted tasks. -/
theorem findAll_excludes_soft_deleted (s : Store) (t : Task) :
    t ∈ TaskService.findAll s ↔ t ∈ s ∧ t.deletedAt = none :=
  mem_find_iff s t

/-- C6: after a successful `fetchTasks`, a fetched task with status
`todo`, `progress` or `done` is a member of exactly the board matching
its status, and the boards depend only on the fetched list, not on the
previous client state. -/
theorem fetchTasks_partitions_by_status (tasks : List CTask)
    (st st₂ : ClientState) (t : CTask) :
    ((t ∈ (fetchTasks tasks st).todoTasks ↔ t ∈ tasks ∧ t.status = "todo") ∧
     (t ∈ (fetchTasks tasks st).progressTasks ↔
       t ∈ tasks ∧ t.status = "progress") ∧
     (t ∈ (fetchTasks tasks st).doneTasks ↔ t ∈ tasks ∧ t.status = "done")) ∧
    ((fetchTasks tasks st).todoTasks = (fetchTasks tasks st₂).todoTasks ∧
     (fetchTasks tasks st).progressTasks =
       (fetchTasks tasks st₂).progressTasks ∧
     (fetchTasks tasks st).doneTasks = (fetchTasks tasks st₂).doneTasks) := by
  simp [fetchTasks]

/-- C9: when `newTaskTitle` is empty or all whitespace, `addTask`
returns before issuing any request: the client state and the server
table are unchanged and no POST is sent. -/
theorem addTask_whitespace_noop (st : ClientState) (server : Store)
    (newId : String) (now : Nat)
    (h : ∀ c ∈ st.newTaskTitle.data, c.isWhitespace) :
    addTask st server newId now = (st, server, false) := by
  have htrim : jsTrim st.newTaskTitle = "" := by
    unfold jsTrim
    rw [List.dropWhile_eq_nil_iff.mpr h]
    simp
  simp [addTask, htrim]

/-- Witness for C9 at the concrete whitespace title `"  "`. -/
theorem addTask_whitespace_noop_witness :
    addTask { todoTasks := [], progressTasks := [], doneTasks := [],
              newTaskTitle := "  ", errorMessage := none }
        [] "n" 7 =
      ({ todoTasks := [], progressTasks := [], doneTasks := [],
         newTaskTitle := "  ", errorMessage := none }, [], false) :=
  addTask_whitespace_noop _ [] "n" 7 (by decide)

/-- C10: a fetched task whose status is none of `todo`, `progress`,
`done` lands on no board, and `fetchTasks` still reports no error. -/
theorem fetchTasks_drops_unknown_status (tasks : List CTask)
    (st : ClientState) (t : CTask) (hmem : t ∈ tasks)
    (h1 : t.status ≠ "todo") (h2 : t.status ≠ "progress")
    (h3 : t.status ≠ "done") :
    t ∉ (fetchTasks tasks st).todoTasks ∧
    t ∉ (fetchTasks tasks st).progressTasks ∧
    t ∉ (fetchTasks tasks st).doneTasks ∧
    (fetchTasks tasks st).errorMessage = none := by
  simp [fetchTasks]
  exact ⟨fun _ => h1, fun _ => h2, fun _ => h3⟩

/-- Witness for C10 at a concrete task with status `"archived"`. -/
theorem fetchTasks_drops_unknown_status_witness :
    ({ id := "1", title := "t", status := "archived" } : CTask) ∉
      (fetchTasks [{ id := "1", title := "t", status := "archived" }]
        { todoTasks := [], progressTasks := [], doneTasks := [],
          newTaskTitle := "", errorMessage := some "old" }).todoTasks ∧
    ({ id := "1", title := "t", status := "archived" } : CTask) ∉
      (fetchTasks [{ id := "1", title := "t", status := "archived" }]
        { todoTasks := [], progressTasks := [], doneTasks := [],
          newTaskTitle := "", errorMessage := some "old" }).progressTasks ∧
    ({ id := "1", title := "t", status := "archived" } : CTask) ∉
      (fetchTasks [{ id := "1", title := "t", status := "archived" }]
        { todoTasks := [], progressTasks := [], doneTasks := [],
          newTaskTitle := "", errorMessage := some "old" }).doneTasks ∧
    (fetchTasks [{ id := "1", title := "t", status := "archived" }]
        { todoTasks := [], progressTasks := [], doneTasks := [],
          newTaskTitle := "", errorMessage := some "old" }).errorMessage =
      none :=
  fetchTasks_drops_unknown_status _ _ _ (by decide) (by decide) (by decide)
    (by decide)

/-- C3: a create accepted by validation persists and returns a task
with status `todo`, the DTO title and a null `deletedAt`. -/
theorem create_sets_defaults (s : Store) (title : String)
    (dto : CreateTaskDto) (newId : String) (now : Nat)
    (h : CreateTaskSchema_parse title = some dto) :
    (TaskService.create s dto newId now).2.status = .todo ∧
    (TaskService.create s dto newId now).2.title = dto.title ∧
    (TaskService.create s dto newId now).2.deletedAt = none ∧
    (TaskService.create s dto newId now).2 ∈
      (TaskService.create s dto newId now).1 :=
  ⟨rfl, rfl, rfl, save_mem s _⟩

/-- Witness for C3 at the concrete title `" buy milk "`. -/
theorem create_sets_defaults_witness :
    (TaskService.create [] { title := "buy milk" } "id1" 4).2.status =
      .todo ∧
    (TaskService.create [] { title := "buy milk" } "id1" 4).2.title =
      ({ title := "buy milk" } : CreateTaskDto).title ∧
    (TaskService.create [] { title := "buy milk" } "id1" 4).2.deletedAt =
      none ∧
    (TaskService.create [] { title := "buy milk" } "id1" 4).2 ∈
      (TaskService.create [] { title := "buy milk" } "id1" 4).1 :=
  create_sets_defaults [] " buy milk " { title := "buy milk" } "id1" 4
    (by decide)

/-- Inversion of a successful `TaskService.remove`: the resulting table
is the stored one with `deletedAt` stamped on the rows carrying the
id. -/
theorem remove_ok_inv (s : Store) (id : String) (now : Nat) (s' : Store)
    (h : TaskService.remove s id now = .ok s') :
    s' = s.map (fun r =>
      if r.id = id then { r with deletedAt := some now } else r) := by
  unfold TaskService.remove Repository.softDelete at h
  by_cases hc : (s.filter (fun r => r.id = id)).length = 0
  · simp [hc] at h
  · simp [hc] at h
    exact h.symm

/-- Inversion of a successful `TaskService.updateStatus`: the returned
task is the found row with the new status, and the table is the stored
one with that row saved. -/
theorem updateStatus_ok_inv (s : Store) (id : String)
    (status : TaskStatus) (now : Nat) (s' : Store) (t' : Task)
    (h : TaskService.updateStatus s id status now = .ok (s', t')) :
    ∃ t₀, Repository.findOneBy s id = some t₀ ∧
      t' = { t₀ with status := status, updatedAt := now } ∧
      s' = Repository.save s t' := by
  unfold TaskService.updateStatus TaskService.findOne at h
  rcases hcase : Repository.findOneBy s id with _ | t₀ <;> rw [hcase] at h
  · simp at h
  · simp at h
    exact ⟨t₀, rfl, h.2.symm, h.2 ▸ h.1.symm⟩

/-- No controller operation shrinks the `tasks` table. -/
theorem applyOp_length_ge (s : Store) (op : Op) :
    s.length ≤ (applyOp s op).length := by
  cases op with
  | createOp dto newId now => exact save_length_ge s _
  | listOp => exact le_refl _
  | updateStatusOp id status now =>
    simp only [applyOp]
    split
    · rename_i r heq
      obtain ⟨t₀, _, _, hs'⟩ :=
        updateStatus_ok_inv s id status now r.1 r.2 (by rw [← heq])
      rw [hs']
      exact save_length_ge s _
    · exact le_refl _
  | removeOp id now =>
    simp only [applyOp]
    split
    · rename_i s₂ heq
      rw [remove_ok_inv s id now s₂ heq]
      simp
    · exact le_refl _

/-- C2: a successful `TaskService.remove` keeps every row — the row
count is unchanged, rows with other ids are untouched and the targeted
rows merely gain a `deletedAt` timestamp — and no controller operation
ever shrinks the table. -/
theorem remove_preserves_rows (s : Store) (id : String) (now : Nat)
    (s' : Store) (op : Op) (h : TaskService.remove s id now = .ok s') :
    s'.length = s.length ∧
    (∀ t ∈ s, t.id ≠ id → t ∈ s') ∧
    (∀ t ∈ s, t.id = id → { t with deletedAt := some now } ∈ s') ∧
    s.length ≤ (applyOp s op).length := by
  have hs' := remove_ok_inv s id now s' h
  refine ⟨?_, ?_, ?_, applyOp_length_ge s op⟩
  · rw [hs']
    simp
  · intro t ht hid
    rw [hs']
    exact List.mem_map.mpr ⟨t, ht, by simp [hid]⟩
  · intro t ht hid
    rw [hs']
    exact List.mem_map.mpr ⟨t, ht, by simp [hid]⟩

/-- Witness for C2 at a one-row table soft-deleted by its id. -/
theorem remove_preserves_rows_witness :
    ([{ id := "a", title := "T", status := TaskStatus.todo,
        createdAt := 0, updatedAt := 0, deletedAt := some 3 }] :
      Store).length =
      ([{ id := "a", title := "T", status := TaskStatus.todo,
          createdAt := 0, updatedAt := 0, deletedAt := none }] :
        Store).length ∧
    (∀ t ∈ ([{ id := "a", title := "T", status := TaskStatus.todo,
               createdAt := 0, updatedAt := 0, deletedAt := none }] :
             Store), t.id ≠ "a" →
      t ∈ ([{ id := "a", title := "T", status := TaskStatus.todo,
              createdAt := 0, updatedAt := 0, deletedAt := some 3 }] :
            Store)) ∧
    (∀ t ∈ ([{ id := "a", title := "T", status := TaskStatus.todo,
               createdAt := 0, updatedAt := 0, deletedAt := none }] :
             Store), t.id = "a" →
      { t with deletedAt := some 3 } ∈
        ([{ id := "a", title := "T", status := TaskStatus.todo,
            createdAt := 0, updatedAt := 0, deletedAt := some 3 }] :
          Store)) ∧
    ([{ id := "a", title := "T", status := TaskStatus.todo,
        createdAt := 0, updatedAt := 0, deletedAt := none }] :
      Store).length ≤
      (applyOp [{ id := "a", title := "T", status := TaskStatus.todo,
                  createdAt := 0, updatedAt := 0, deletedAt := none }]
        (Op.removeOp "a" 3)).length :=
  remove_preserves_rows
    [{ id := "a", title := "T", status := TaskStatus.todo,
       createdAt := 0, updatedAt := 0, deletedAt := none }]
    "a" 3 _ (Op.removeOp "a" 3) (by decide)

/-- C7: a successful `updateStatus` returns a task with the requested
id and status whose title, creation timestamp and deletion timestamp
are those of the stored task, stores it, and leaves the row count and
every row with a different id unchanged in both directions. -/
theorem updateStatus_frame (s : Store) (id : String)
    (status : TaskStatus) (now : Nat) (s' : Store) (t' : Task)
    (h : TaskService.updateStatus s id status now = .ok (s', t')) :
    (t'.id = id ∧ t'.status = status ∧
     ∃ t ∈ s, t.id = id ∧ t'.title = t.title ∧
       t'.createdAt = t.createdAt ∧ t'.deletedAt = t.deletedAt) ∧
    t' ∈ s' ∧ s'.length = s.length ∧
    (∀ r ∈ s, r.id ≠ id → r ∈ s') ∧
    (∀ r ∈ s', r.id ≠ id → r ∈ s) := by
  obtain ⟨t₀, hfind, ht', hs'⟩ := updateStatus_ok_inv s id status now s' t' h
  obtain ⟨hmem, hid, hdel⟩ := findOneBy_some_spec s id t₀ hfind
  have ht'id : t'.id = id := by rw [ht']; exact hid
  subst hs'
  refine ⟨⟨ht'id, by rw [ht'], t₀, hmem, hid, by rw [ht'], by rw [ht'],
      by rw [ht']⟩, ?_, ?_, ?_, ?_⟩
  · exact save_mem s t'
  · exact save_length_of_mem s t' ⟨t₀, hmem, by rw [ht'id, hid]⟩
  · intro r hr hrid
    exact save_frame s t' r hr (by rw [ht'id]; exact hrid)
  · intro r hr hrid
    exact save_frame_rev s t' r hr (by rw [ht'id]; exact hrid)

/-- Witness for C7: moving a concrete task to `done`. -/
theorem updateStatus_frame_witness :
    (({ id := "a", title := "T", status := TaskStatus.done,
        createdAt := 0, updatedAt := 9, deletedAt := none } : Task).id =
        "a" ∧
     ({ id := "a", title := "T", status := TaskStatus.done,
        createdAt := 0, updatedAt := 9, deletedAt := none } : Task).status =
        TaskStatus.done ∧
     ∃ t ∈ ([{ id := "a", title := "T", status := TaskStatus.todo,
               createdAt := 0, updatedAt := 0, deletedAt := none }] :
             Store),
       t.id = "a" ∧
       ({ id := "a", title := "T", status := TaskStatus.done,
          createdAt := 0, updatedAt := 9, deletedAt := none } :
         Task).title = t.title ∧
       ({ id := "a", title := "T", status := TaskStatus.done,
          createdAt := 0, updatedAt := 9, deletedAt := none } :
         Task).createdAt = t.createdAt ∧
       ({ id := "a", title := "T", status := TaskStatus.done,
          createdAt := 0, updatedAt := 9, deletedAt := none } :
         Task).deletedAt = t.deletedAt) ∧
    ({ id := "a", title := "T", status := TaskStatus.done,
       createdAt := 0, updatedAt := 9, deletedAt := none } : Task) ∈
      ([{ id := "a", title := "T", status := TaskStatus.done,
          createdAt := 0, updatedAt := 9, deletedAt := none }] : Store) ∧
    ([{ id := "a", title := "T", status := TaskStatus.done,
        createdAt := 0, updatedAt := 9, deletedAt := none }] :
      Store).length =
      ([{ id := "a", title := "T", status := TaskStatus.todo,
          createdAt := 0, updatedAt := 0, deletedAt := none }] :
        Store).length ∧
    (∀ r ∈ ([{ id := "a", title := "T", status := TaskStatus.todo,
               createdAt := 0, updatedAt := 0, deletedAt := none }] :
             Store), r.id ≠ "a" →
      r ∈ ([{ id := "a", title := "T", status := TaskStatus.done,
              createdAt := 0, updatedAt := 9, deletedAt := none }] :
            Store)) ∧
    (∀ r ∈ ([{ id := "a", title := "T", status := TaskStatus.done,
               createdAt := 0, updatedAt := 9, deletedAt := none }] :
             Store), r.id ≠ "a" →
      r ∈ ([{ id := "a", title := "T", status := TaskStatus.todo,
              createdAt := 0, updatedAt := 0, deletedAt := none }] :
            Store)) :=
  updateStatus_frame
    [{ id := "a", title := "T", status := TaskStatus.todo,
       createdAt := 0, updatedAt := 0, deletedAt := none }]
    "a" TaskStatus.done 9 _ _ (by decide)

/-- C4: evaluation of `CreateTaskSchema` at the failing input `" "`
(one space).  Zod runs `min(1)` and `max(255)` on the raw string before
the `.trim()` transform, so the single-space title passes validation
and is stored as the empty title — the schema does not enforce the
non-empty bound on the stored title. -/
theorem createTaskSchema_accepts_blank :
    CreateTaskSchema_parse " " = some { title := "" } := by decide

/-- C8 counterexample: a table holding one soft-deleted row with id
`"a"`.  The id is present among the stored rows, yet `updateStatus`
raises `NotFoundException` (its `findOneBy` skips soft-deleted rows),
refuting the claim that present ids never raise the error. -/
theorem notFound_claim_cex :
    (∃ t ∈ ([{ id := "a", title := "T", status := TaskStatus.todo,
               createdAt := 0, updatedAt := 0, deletedAt := some 5 }] :
             Store), t.id = "a") ∧
    TaskService.updateStatus
        [{ id := "a", title := "T", status := TaskStatus.todo,
           createdAt := 0, updatedAt := 0, deletedAt := some 5 }]
        "a" TaskStatus.done 9 = .error .notFound := by decide

/-- A found id makes `updateStatus` succeed. -/
theorem updateStatus_ok_of_some (s : Store) (id : String)
    (status : TaskStatus) (now : Nat) (t₀ : Task)
    (h : Repository.findOneBy s id = some t₀) :
    TaskService.updateStatus s id status now =
      .ok (Repository.save s { t₀ with status := status, updatedAt := now },
           { t₀ with status := status, updatedAt := now }) := by
  unfold TaskService.updateStatus TaskService.findOne
  rw [h]

/-- A missing id makes `updateStatus` raise `NotFoundException`. -/
theorem updateStatus_err_of_none (s : Store) (id : String)
    (status : TaskStatus) (now : Nat)
    (h : Repository.findOneBy s id = none) :
    TaskService.updateStatus s id status now = .error .notFound := by
  unfold TaskService.updateStatus TaskService.findOne
  rw [h]

/-- `TaskService.remove` raises exactly when no stored row carries the
id. -/
theorem remove_err_iff (s : Store) (id : String) (now : Nat) :
    TaskService.remove s id now = .error .notFound ↔
      ¬ ∃ t ∈ s, t.id = id := by
  unfold TaskService.remove Repository.softDelete
  by_cases hc : (s.filter (fun r => r.id = id)).length = 0
  · simp only [hc, if_pos]
    rw [List.length_eq_zero, List.filter_eq_nil_iff] at hc
    simp only [decide_eq_true_eq] at hc
    constructor
    · rintro _ ⟨t, ht, hid⟩
      exact hc t ht hid
    · intro _
      trivial
  · simp only [hc, if_false, reduceCtorEq, false_iff, not_not]
    rw [List.length_eq_zero, List.filter_eq_nil_iff] at hc
    push_neg at hc
    obtain ⟨t, ht, hid⟩ := hc
    simp only [decide_eq_true_eq] at hid
    exact ⟨t, ht, hid⟩

theorem softDelete_noop_of_err (s : Store) (id : String) (now : Nat)
    (h : TaskService.remove s id now = .error .notFound) :
    (Repository.softDelete s id now).1 = s := by
  have hc := (remove_err_iff s id now).mp h
  unfold Repository.softDelete
  simp only []
  have : ∀ t ∈ s, (if t.id = id then { t with deletedAt := some now } else t) = t := by
    intro t ht
    rw [if_neg]
    intro hid
    exact hc ⟨t, ht, hid⟩
  exact List.map_congr_left this |>.trans (List.map_id s)

theorem updateStatus_err_iff (s : Store) (id : String)
    (status : TaskStatus) (now : Nat) :
    TaskService.updateStatus s id status now = .error .notFound ↔
      ¬ ∃ t ∈ s, t.id = id ∧ t.deletedAt = none := by
  rw [← findOneBy_none_iff]
  constructor
  · intro h
    rcases hcase : Repository.findOneBy s id with _ | t₀
    · rfl
    · rw [updateStatus_ok_of_some s id status now t₀ hcase] at h
      cases h
  · exact updateStatus_err_of_none s id status now

theorem notFound_iff_amended (s : Store) (id : String)
    (status : TaskStatus) (now : Nat) :
    (TaskService.updateStatus s id status now = .error .notFound ↔
      ¬ ∃ t ∈ s, t.id = id ∧ t.deletedAt = none) ∧
    (TaskService.remove s id now = .error .notFound ↔
      ¬ ∃ t ∈ s, t.id = id) ∧
    (TaskService.remove s id now = .error .notFound →
      (Repository.softDelete s id now).1 = s) :=
  ⟨updateStatus_err_iff s id status now, remove_err_iff s id now,
   softDelete_noop_of_err s id now⟩

theorem notFound_iff_amended_witness :
    TaskService.updateStatus ([] : Store) "a" TaskStatus.todo 0 =
      .error .notFound ∧
    (Repository.softDelete ([] : Store) "a" 0).1 = [] :=
  ⟨(notFound_iff_amended [] "a" TaskStatus.todo 0).1.mpr (by decide),
   (notFound_iff_amended [] "a" TaskStatus.todo 0).2.2 (by decide)⟩

theorem deleteTask_not_rederived_cex :
    (deleteTask
        { todoTasks := [{ id := "x", title := "stale", status := "todo" },
                        { id := "b", title := "B", status := "todo" }],
          progressTasks := [], doneTasks := [], newTaskTitle := "",
          errorMessage := none }
        [{ id := "b", title := "B", status := TaskStatus.todo,
           createdAt := 0, updatedAt := 0, deletedAt := none }]
        { id := "b", title := "B", status := "todo" } 1).1.todoTasks =
      [{ id := "x", title := "stale", status := "todo" }] ∧
    (fetchTasks
        ((TaskService.findAll
            (deleteTask
                { todoTasks := [{ id := "x", title := "stale",
                                  status := "todo" },
                                { id := "b", title := "B",
                                  status := "todo" }],
                  progressTasks := [], doneTasks := [], newTaskTitle := "",
                  errorMessage := none }
                [{ id := "b", title := "B", status := TaskStatus.todo,
                   createdAt := 0, updatedAt := 0, deletedAt := none }]
                { id := "b", title := "B", status := "todo" } 1).2).map
          Task.toClient)
        { todoTasks := [{ id := "x", title := "stale", status := "todo" },
                        { id := "b", title := "B", status := "todo" }],
          progressTasks := [], doneTasks := [], newTaskTitle := "",
          errorMessage := none }).todoTasks = [] := by decide

theorem client_mutations_resync (st : ClientState) (server : Store)
    (newId : String) (now : Nat) (dto : CreateTaskDto)
    (ob nb : TaskStatus) (taskId : String) (t : CTask) (server' : Store)
    (hadd : CreateTaskSchema_parse (jsTrim st.newTaskTitle) = some dto)
    (hmove : ob ≠ nb)
    (hdel : TaskService.remove server t.id now = .ok server') :
    ((addTask st server newId now).1.todoTasks =
       ((TaskService.findAll (addTask st server newId now).2.1).map
          Task.toClient).filter (fun x => x.status = "todo") ∧
     (addTask st server newId now).1.progressTasks =
       ((TaskService.findAll (addTask st server newId now).2.1).map
          Task.toClient).filter (fun x => x.status = "progress") ∧
     (addTask st server newId now).1.doneTasks =
       ((TaskService.findAll (addTask st server newId now).2.1).map
          Task.toClient).filter (fun x => x.status = "done")) ∧
    ((handleTaskMove st server ob nb taskId now).1.todoTasks =
       ((TaskService.findAll
           (handleTaskMove st server ob nb taskId now).2).map
          Task.toClient).filter (fun x => x.status = "todo") ∧
     (handleTaskMove st server ob nb taskId now).1.progressTasks =
       ((TaskService.findAll
           (handleTaskMove st server ob nb taskId now).2).map
          Task.toClient).filter (fun x => x.status = "progress") ∧
     (handleTaskMove st server ob nb taskId now).1.doneTasks =
       ((TaskService.findAll
           (handleTaskMove st server ob nb taskId now).2).map
          Task.toClient).filter (fun x => x.status = "done")) ∧
    ((st.todoTasks.any (fun x => x.id = t.id) = true →
       (deleteTask st server t now).1.todoTasks =
         st.todoTasks.eraseP (fun x => x.id = t.id) ∧
       (deleteTask st server t now).1.progressTasks = st.progressTasks ∧
       (deleteTask st server t now).1.doneTasks = st.doneTasks) ∧
     (st.todoTasks.any (fun x => x.id = t.id) = false →
      st.progressTasks.any (fun x => x.id = t.id) = true →
       (deleteTask st server t now).1.todoTasks = st.todoTasks ∧
       (deleteTask st server t now).1.progressTasks =
         st.progressTasks.eraseP (fun x => x.id = t.id) ∧
       (deleteTask st server t now).1.doneTasks = st.doneTasks) ∧
     (st.todoTasks.any (fun x => x.id = t.id) = false →
      st.progressTasks.any (fun x => x.id = t.id) = false →
      st.doneTasks.any (fun x => x.id = t.id) = true →
       (deleteTask st server t now).1.todoTasks = st.todoTasks ∧
       (deleteTask st server t now).1.progressTasks = st.progressTasks ∧
       (deleteTask st server t now).1.doneTasks =
         st.doneTasks.eraseP (fun x => x.id = t.id))) := by
  have hne : ¬ jsTrim st.newTaskTitle = "" := by
    intro he
    rw [he] at hadd
    simp [CreateTaskSchema_parse] at hadd
  refine ⟨?_, ?_, ?_, ?_, ?_⟩
  · simp [addTask, hne, hadd, fetchTasks]
  · rcases hcase : TaskService.updateStatus server taskId nb now with e | r <;>
      simp [handleTaskMove, hmove, hcase, fetchTasks]
  · intro h1
    simp [deleteTask, hdel, h1]
  · intro h1 h2
    simp [deleteTask, hdel, h1, h2]
  · intro h1 h2 h3
    simp [deleteTask, hdel, h1, h2, h3]

theorem client_mutations_resync_witness :
    (addTask
        { todoTasks := [], progressTasks := [], doneTasks := [],
          newTaskTitle := "hi", errorMessage := none }
        [{ id := "b", title := "B", status := TaskStatus.todo,
           createdAt := 0, updatedAt := 0, deletedAt := none }]
        "n" 2).1.todoTasks =
      ((TaskService.findAll
          (addTask
              { todoTasks := [], progressTasks := [], doneTasks := [],
                newTaskTitle := "hi", errorMessage := none }
              [{ id := "b", title := "B", status := TaskStatus.todo,
                 createdAt := 0, updatedAt := 0, deletedAt := none }]
              "n" 2).2.1).map Task.toClient).filter
        (fun x => x.status = "todo") ∧
    (addTask
        { todoTasks := [], progressTasks := [], doneTasks := [],
          newTaskTitle := "hi", errorMessage := none }
        [{ id := "b", title := "B", status := TaskStatus.todo,
           createdAt := 0, updatedAt := 0, deletedAt := none }]
        "n" 2).1.progressTasks =
      ((TaskService.findAll
          (addTask
              { todoTasks := [], progressTasks := [], doneTasks := [],
                newTaskTitle := "hi", errorMessage := none }
              [{ id := "b", title := "B", status := TaskStatus.todo,
                 createdAt := 0, updatedAt := 0, deletedAt := none }]
              "n" 2).2.1).map Task.toClient).filter
        (fun x => x.status = "progress") ∧
    (addTask
        { todoTasks := [], progressTasks := [], doneTasks := [],
          newTaskTitle := "hi", errorMessage := none }
        [{ id := "b", title := "B", status := TaskStatus.todo,
           createdAt := 0, updatedAt := 0, deletedAt := none }]
        "n" 2).1.doneTasks =
      ((TaskService.findAll
          (addTask
              { todoTasks := [], progressTasks := [], doneTasks := [],
                newTaskTitle := "hi", errorMessage := none }
              [{ id := "b", title := "B", status := TaskStatus.todo,
                 createdAt := 0, updatedAt := 0, deletedAt := none }]
              "n" 2).2.1).map Task.toClient).filter
        (fun x => x.status = "done") :=
  (client_mutations_resync
      { todoTasks := [], progressTasks := [], doneTasks := [],
        newTaskTitle := "hi", errorMessage := none }
      [{ id := "b", title := "B", status := TaskStatus.todo,
         createdAt := 0, updatedAt := 0, deletedAt := none }]
      "n" 2 { title := "hi" } TaskStatus.todo TaskStatus.done "b"
      { id := "b", title := "B", status := "todo" }
      [{ id := "b", title := "B", status := TaskStatus.todo,
         createdAt := 0, updatedAt := 0, deletedAt := some 2 }]
      (by decide) (by decide) (by decide)).1

end Kanban
